import Mathlib

/-!
Shallow embedding of the survival microsimulation and SIR calibration
engine of this repository (Q1.py and Q4.py).

In the source, `self._rnd = np.random` binds every patient to the single
module-level numpy generator; `np.random.seed(k)` resets that global
generator's state and `np.random.sample()` draws the next uniform variate
from it.  We model the global generator's state as a pair `(seed, pos)`:
the seed it was last given and how many variates were drawn since.  The
actual variate values are supplied by an ambient `stream : Nat → Nat → ℚ`
mapping (seed, position) to the variate, so that one run of the program is
parameterized by the variate table its generator realizes.  Failures that
Python surfaces as exceptions (ZeroDivisionError on an empty mean,
IndexError on an out-of-range index, ValueError from np.random.choice) are
modelled as `none`; the IEEE non-numbers (nan/inf) produced by np.divide
with a zero divisor are modelled as `none` entries of the weight list.
-/

namespace HPM

inductive HealthStat where
  | ALIVE
  | DEAD
deriving DecidableEq

/-- State of the module-level generator: the seed it was last given and the
number of variates drawn since that seeding. -/
structure RNG where
  seed : Nat
  pos : Nat
deriving DecidableEq

structure Patient where
  id : Nat
  mortalityProb : ℚ
  healthState : HealthStat
  survivalTime : Nat
deriving DecidableEq

/-- Patient constructor (Q1.py / Q4.py `Patient.__init__`): stores the id and
the mortality probability unvalidated, reseeds the module-level generator with
the id (`np.random.seed(self._id)`), starts ALIVE with `_survivalTime = 0`. -/
def Patient.init (id : Nat) (mortality_prob : ℚ) (_g : RNG) : Patient × RNG :=
  (⟨id, mortality_prob, HealthStat.ALIVE, 0⟩, ⟨id, 0⟩)

/-- The body of `Patient.simulate`: `while alive and t < n:` with `fuel = n - t`
remaining iterations.  Each iteration draws `stream g.seed g.pos` (this is
`self._rnd.sample()`, which also advances the global generator), kills the
patient when the variate is below the mortality probability, recording
`_survivalTime = t + 1` (end-of-period convention), and increments `t`. -/
def Patient.simLoop (stream : Nat → Nat → ℚ) : Patient → RNG → Nat → Nat → Patient × RNG
  | pat, g, _, 0 => (pat, g)
  | pat, g, t, fuel + 1 =>
    if pat.healthState = HealthStat.ALIVE then
      if stream g.seed g.pos < pat.mortalityProb then
        Patient.simLoop stream
          { pat with healthState := HealthStat.DEAD, survivalTime := t + 1 }
          ⟨g.seed, g.pos + 1⟩ (t + 1) fuel
      else
        Patient.simLoop stream pat ⟨g.seed, g.pos + 1⟩ (t + 1) fuel
    else (pat, g)

/-- `Patient.simulate(n_time_steps)`: run the while-loop from `t = 0`. -/
def Patient.simulate (stream : Nat → Nat → ℚ) (pat : Patient) (g : RNG)
    (n_time_steps : Nat) : Patient × RNG :=
  Patient.simLoop stream pat g 0 n_time_steps

/-- `Patient.get_survival_time`: the recorded time if DEAD, else `None`. -/
def Patient.get_survival_time (pat : Patient) : Option Nat :=
  if pat.healthState = HealthStat.DEAD then some pat.survivalTime else none

structure Cohort where
  patients : List Patient
  survivalTimes : List Nat
  five : List Nat
deriving DecidableEq

/-- The population loop of `Cohort.__init__`: construct one patient per id in
the list, threading the global generator state (each construction reseeds it). -/
def Cohort.initAux (mortality_prob : ℚ) : List Nat → RNG → List Patient × RNG
  | [], g => ([], g)
  | pid :: rest, g =>
    let r1 := Patient.init pid mortality_prob g
    let r2 := Cohort.initAux mortality_prob rest r1.2
    (r1.1 :: r2.1, r2.2)

/-- `Cohort.__init__(id, pop_size, mortality_prob)`: patient ids are
`id * pop_size + i` for `i` in `range(pop_size)`; the derived lists start
empty. -/
def Cohort.init (id pop_size : Nat) (mortality_prob : ℚ) (g : RNG) : Cohort × RNG :=
  let r := Cohort.initAux mortality_prob
    ((List.range pop_size).map (fun i => id * pop_size + i)) g
  (⟨r.1, [], []⟩, r.2)

/-- The patient loop of `Cohort.simulate`: simulate each patient in order
(threading the shared global generator), then record the survival time and the
5-year indicator (`1` if the value exceeds 5, else `0`) for each death. -/
def Cohort.simulateList (stream : Nat → Nat → ℚ) (n : Nat) :
    List Patient → RNG → List Patient × List Nat × List Nat × RNG
  | [], g => ([], [], [], g)
  | pat :: rest, g =>
    let pr := Patient.simulate stream pat g n
    let r := Cohort.simulateList stream n rest pr.2
    match pr.1.get_survival_time with
    | none => (pr.1 :: r.1, r.2.1, r.2.2.1, r.2.2.2)
    | some v => (pr.1 :: r.1, v :: r.2.1, (if 5 < v then 1 else 0) :: r.2.2.1, r.2.2.2)

/-- `Cohort.simulate(n_time_steps)`: appends the newly recorded values to the
derived lists (which are empty on a fresh cohort). -/
def Cohort.simulate (stream : Nat → Nat → ℚ) (c : Cohort) (g : RNG) (n : Nat) :
    Cohort × RNG :=
  let r := Cohort.simulateList stream n c.patients g
  (⟨r.1, c.survivalTimes ++ r.2.1, c.five ++ r.2.2.1⟩, r.2.2.2)

/-- `Cohort.get_ave_survival_time`: `sum(times)/len(times)`; the Python
division raises ZeroDivisionError on an empty list, modelled as `none`. -/
def Cohort.get_ave_survival_time (c : Cohort) : Option ℚ :=
  if c.survivalTimes.length = 0 then none
  else some ((c.survivalTimes.sum : ℚ) / (c.survivalTimes.length : ℚ))

/-- `Cohort.get_percentage` (Q4.py): `sum(five)/len(five)`; ZeroDivisionError
on an empty list is modelled as `none`. -/
def Cohort.get_percentage (c : Cohort) : Option ℚ :=
  if c.five.length = 0 then none
  else some ((c.five.sum : ℚ) / (c.five.length : ℚ))

structure MultiCohort where
  ids : List Nat
  popSizes : List Nat
  mortalityProbs : List ℚ
  meanSurvivalTimes : List ℚ
  percentages : List ℚ
deriving DecidableEq

/-- `MultiCohort.__init__`: stores the three parallel parameter sequences;
the output sequences start empty. -/
def MultiCohort.init (ids pop_sizes : List Nat) (mortality_probs : List ℚ) : MultiCohort :=
  ⟨ids, pop_sizes, mortality_probs, [], []⟩

/-- The cohort loop of `MultiCohort.simulate`: `for i in range(len(ids))`,
build `Cohort(ids[i], pop_sizes[i], probs[i])`, simulate it, and append its
mean survival time and percentage.  Indexing a too-short parallel list raises
IndexError, and a cohort with zero deaths raises ZeroDivisionError inside
`get_ave_survival_time`; both failures are modelled as `none`. -/
def MultiCohort.simLoop (stream : Nat → Nat → ℚ) (n : Nat) :
    List Nat → List Nat → List ℚ → RNG → Option (List ℚ × List ℚ × RNG)
  | [], _, _, g => some ([], [], g)
  | _ :: _, [], _, _ => none
  | _ :: _, _ :: _, [], _ => none
  | id :: ids, ps :: pss, p :: probs, g =>
    let r1 := Cohort.init id ps p g
    let r2 := Cohort.simulate stream r1.1 r1.2 n
    match r2.1.get_ave_survival_time, r2.1.get_percentage with
    | some m, some f =>
      match MultiCohort.simLoop stream n ids pss probs r2.2 with
      | some r => some (m :: r.1, f :: r.2.1, r.2.2)
      | none => none
    | _, _ => none

/-- `MultiCohort.simulate(n_time_steps)`: run every cohort and append the
collected summary statistics to the output sequences. -/
def MultiCohort.simulate (stream : Nat → Nat → ℚ) (mc : MultiCohort) (g : RNG)
    (n : Nat) : Option (MultiCohort × RNG) :=
  match MultiCohort.simLoop stream n mc.ids mc.popSizes mc.mortalityProbs g with
  | some r =>
    some (⟨mc.ids, mc.popSizes, mc.mortalityProbs,
      mc.meanSurvivalTimes ++ r.1, mc.percentages ++ r.2.1⟩, r.2.2)
  | none => none

/-- Python list subscription `xs[i]`: a non-negative index must be below the
length (IndexError otherwise, modelled `none`); a negative index `i` denotes
`xs[len(xs) + i]` when that is in range and raises IndexError otherwise. -/
def pyGet {α : Type} (xs : List α) (i : Int) : Option α :=
  if 0 ≤ i then xs.get? i.toNat
  else if 0 ≤ (xs.length : Int) + i then xs.get? ((xs.length : Int) + i).toNat
  else none

/-- `MultiCohort.get_cohort_mean_survival(cohort_index)`: plain Python list
subscription of the mean-survival output sequence. -/
def MultiCohort.get_cohort_mean_survival (mc : MultiCohort) (cohort_index : Int) :
    Option ℚ :=
  pyGet mc.meanSurvivalTimes cohort_index

/-- `np.sum` over a weight vector. -/
def npSum (xs : List ℚ) : ℚ := xs.sum

/-- Elementwise `np.divide(xs, s)`.  numpy does not raise on a zero divisor:
it emits a warning and produces IEEE non-numbers (0/0 = nan, w/0 = ±inf),
which we model as `none` entries. -/
def npDivide (xs : List ℚ) (s : ℚ) : List (Option ℚ) :=
  xs.map (fun w => if s = 0 then none else some (w / s))

/-- The elementwise selection performed by `np.random.choice`: the sampler
realizes a list of positions into `a` and returns the values found there. -/
def npPick (a : List ℚ) : List Nat → Option (List ℚ)
  | [] => some []
  | i :: rest =>
    match a.get? i, npPick a rest with
    | some x, some xs => some (x :: xs)
    | _, _ => none

/-- `np.random.choice(a, size, replace=True, p)`: validates the probability
vector (it must be index-aligned with `a`, contain only finite numbers — NaN
entries raise ValueError, modelled as the `none` entries of `p` here — be
non-negative and sum to 1), then returns the values of `a` at the positions
the sampler realizes (`idxs`). -/
def npChoice (a : List ℚ) (p : List (Option ℚ)) (idxs : List Nat) : Option (List ℚ) :=
  if (∀ w ∈ p, w.isSome = true) ∧ p.length = a.length ∧
      (p.filterMap id).sum = 1 ∧ (∀ w ∈ p.filterMap id, 0 ≤ w) then
    npPick a idxs
  else none

/-- Module-level constants of Q4.py. -/
def N_TIME_STEPS : Nat := 1000

def NUM_COHORTS : Nat := 1000

def POP_SIZE : Nat := 573

def POST_L : ℚ := 1 / 20

def POST_U : ℚ := 1 / 4

def POST_N : Nat := 1000

structure Calibration where
  mortalitysamples : List ℚ
  weights : List ℚ
  nomweights : List (Option ℚ)
  mortalityresamples : List ℚ
deriving DecidableEq

/-- `Calibration.sample_posterior`, parameterized by what the script fixes
globally: the prior draws `samples` (the realized `np.random.uniform(POST_L,
POST_U, POST_N)` vector), the binomial PMF collaborator `pmf` applied to each
simulated percentage (`Stat.binom.pmf(k=400, n=573, p=...)`), the cohort
population size (`POP_SIZE`), the horizon (`N_TIME_STEPS`), and the positions
`idxs` realized by `np.random.choice` (its size argument is `NUM_COHORTS`).
The cohort ids are `range(len(samples))` and every population size is
`pop_size`, as in the source.  Any exception escaping the pass is `none`. -/
def Calibration.sample_posterior (stream : Nat → Nat → ℚ) (pmf : ℚ → ℚ)
    (samples : List ℚ) (pop_size n_time_steps : Nat) (idxs : List Nat)
    (g : RNG) : Option Calibration :=
  let mc := MultiCohort.init (List.range samples.length)
    (List.replicate samples.length pop_size) samples
  match MultiCohort.simulate stream mc g n_time_steps with
  | none => none
  | some r =>
    let weights := r.1.percentages.map pmf
    let nomweights := npDivide weights (npSum weights)
    match npChoice samples nomweights idxs with
    | none => none
    | some res => some ⟨samples, weights, nomweights, res⟩

/-- Modelled from the spec (section 4.4, step 4), for contrast with the
code's `npDivide`-based normalization: normalization fails with a
degenerate-likelihood error when the weight sum is zero, and otherwise
divides each weight by the sum. -/
def normalizeSpec (ws : List ℚ) : Option (List ℚ) :=
  if ws.sum = 0 then none else some (ws.map (fun w => w / ws.sum))

/-- A freshly constructed patient immediately simulated, exactly as a lone
`Patient(id, p)` followed by `simulate(n)` executes. -/
def patientRun (stream : Nat → Nat → ℚ) (id : Nat) (p : ℚ) (g0 : RNG) (n : Nat) : Patient :=
  (Patient.simulate stream (Patient.init id p g0).1 (Patient.init id p g0).2 n).1

/-- A freshly constructed cohort immediately simulated. -/
def cohortRun (stream : Nat → Nat → ℚ) (id pop_size : Nat) (p : ℚ) (g0 : RNG)
    (n : Nat) : Cohort :=
  (Cohort.simulate stream (Cohort.init id pop_size p g0).1
    (Cohort.init id pop_size p g0).2 n).1

/-- Concrete variate table that never sets off a death check at probability
at most zero: every variate is 0. -/
def streamZero : Nat → Nat → ℚ := fun _ _ => 0

/-- Concrete variate table distinguishing the seeds 0 and 1. -/
def C1stream : Nat → Nat → ℚ := fun sd _ => if sd = 0 then 0 else 1

/-- Concrete variate table whose first draw survives and second draw kills at
probability 1/2. -/
def C2stream : Nat → Nat → ℚ := fun _ pos => if pos = 0 then 1 else 0

/-- The same triple (patient id 0, mortality probability 1, horizon 1)
simulated on a lone freshly constructed patient. -/
def C1alone : Option Nat := (patientRun C1stream 0 1 ⟨9, 9⟩ 1).get_survival_time

/-- The same triple simulated for the first patient of `Cohort(0, 2, 1)`
(whose patient ids are 0 and 1). -/
def C1inCohort : Option Nat :=
  match (cohortRun C1stream 0 2 1 ⟨9, 9⟩ 1).patients with
  | pat :: _ => pat.get_survival_time
  | [] => none

/-- One completed `simulate(1)` call on a fresh patient with mortality
probability 1 under `C2stream`: the horizon elapses with the patient ALIVE. -/
def C2once : Patient × RNG :=
  Patient.simulate C2stream (Patient.init 0 1 ⟨3, 3⟩).1
    (Patient.init 0 1 ⟨3, 3⟩).2 1

/-- A repeated `simulate(1)` call on the same patient. -/
def C2twice : Patient × RNG := Patient.simulate C2stream C2once.1 C2once.2 1

/-- A fully simulated two-cohort ensemble (both cohorts of size 1, mortality
probability 1, horizon 1, every patient dying at time 1). -/
def C9run : Option (MultiCohort × RNG) :=
  MultiCohort.simulate streamZero (MultiCohort.init [0, 1] [1, 1] [1, 1]) ⟨7, 7⟩ 1

/-! ## Helper lemmas -/

theorem simLoop_dead (stream : Nat → Nat → ℚ) (pat : Patient) (g : RNG) (t fuel : Nat)
    (h : pat.healthState = HealthStat.DEAD) :
    Patient.simLoop stream pat g t fuel = (pat, g) := by
  cases fuel with
  | zero => rfl
  | succ k => simp [Patient.simLoop, h]

theorem simLoop_zero_prob (stream : Nat → Nat → ℚ) (hs : ∀ s u, 0 ≤ stream s u) :
    ∀ (fuel : Nat) (pat : Patient) (g : RNG) (t : Nat), pat.mortalityProb = 0 →
    (Patient.simLoop stream pat g t fuel).1 = pat := by
  intro fuel
  induction fuel with
  | zero => intro pat g t _; rfl
  | succ k ih =>
    intro pat g t hp
    by_cases h : pat.healthState = HealthStat.ALIVE
    · have hv : ¬ stream g.seed g.pos < pat.mortalityProb := by
        rw [hp]; exact not_lt.mpr (hs _ _)
      simp only [Patient.simLoop, h, if_true, hv, if_false]
      exact ih pat _ _ hp
    · simp [Patient.simLoop, h]

theorem simLoop_death_spec (stream : Nat → Nat → ℚ) (sd : Nat) :
    ∀ (fuel t pos : Nat) (pat : Patient) (v : Nat),
    pat.healthState = HealthStat.ALIVE →
    ((Patient.simLoop stream pat ⟨sd, pos⟩ t fuel).1).get_survival_time = some v →
    t + 1 ≤ v ∧ v ≤ t + fuel ∧ stream sd (pos + (v - 1 - t)) < pat.mortalityProb ∧
      ∀ j, j < v - 1 - t → ¬ stream sd (pos + j) < pat.mortalityProb := by
  intro fuel
  induction fuel with
  | zero =>
    intro t pos pat v hA hv
    exfalso
    simp [Patient.simLoop, Patient.get_survival_time, hA] at hv
  | succ k ih =>
    intro t pos pat v hA hv
    simp only [Patient.simLoop, hA, if_true] at hv
    by_cases hd : stream sd pos < pat.mortalityProb
    · rw [if_pos hd, simLoop_dead stream _ _ _ _ rfl] at hv
      simp only [Patient.get_survival_time, if_pos rfl] at hv
      have hveq : v = t + 1 := by
        cases hv
        rfl
      subst hveq
      refine ⟨le_refl _, by omega, ?_, ?_⟩
      · have he : t + 1 - 1 - t = 0 := by omega
        rw [he, Nat.add_zero]
        exact hd
      · intro j hj
        omega
    · rw [if_neg hd] at hv
      have hrec := ih (t + 1) (pos + 1) pat v hA hv
      obtain ⟨h1, h2, h3, h4⟩ := hrec
      have he : pos + 1 + (v - 1 - (t + 1)) = pos + (v - 1 - t) := by omega
      rw [he] at h3
      refine ⟨by omega, by omega, h3, ?_⟩
      intro j hj
      cases j with
      | zero =>
        rw [Nat.add_zero]
        exact hd
      | succ m =>
        have hm : m < v - 1 - (t + 1) := by omega
        have he2 : pos + 1 + m = pos + (m + 1) := by omega
        rw [← he2]
        exact h4 m hm

theorem initAux_mem (p : ℚ) :
    ∀ (pids : List Nat) (g : RNG) (pat : Patient),
    pat ∈ (Cohort.initAux p pids g).1 →
    pat.mortalityProb = p ∧ pat.healthState = HealthStat.ALIVE ∧ pat.survivalTime = 0 := by
  intro pids
  induction pids with
  | nil => intro g pat h; simp [Cohort.initAux] at h
  | cons pid rest ih =>
    intro g pat h
    simp only [Cohort.initAux, List.mem_cons] at h
    rcases h with h | h
    · subst h
      exact ⟨rfl, rfl, rfl⟩
    · exact ih _ pat h

theorem simulateList_no_death (stream : Nat → Nat → ℚ) (hs : ∀ s u, 0 ≤ stream s u)
    (n : Nat) :
    ∀ (pats : List Patient) (g : RNG),
    (∀ pat ∈ pats, pat.mortalityProb = 0 ∧ pat.healthState = HealthStat.ALIVE) →
    (Cohort.simulateList stream n pats g).2.1 = [] ∧
      (Cohort.simulateList stream n pats g).2.2.1 = [] := by
  intro pats
  induction pats with
  | nil => intro g _; exact ⟨rfl, rfl⟩
  | cons pat rest ih =>
    intro g hmem
    have hpat := hmem pat (List.mem_cons_self _ _)
    have hsim : (Patient.simulate stream pat g n).1 = pat :=
      simLoop_zero_prob stream hs n pat g 0 hpat.1
    have hget : (Patient.simulate stream pat g n).1.get_survival_time = none := by
      rw [hsim]
      simp [Patient.get_survival_time, hpat.2]
    have hrest := ih (Patient.simulate stream pat g n).2
      (fun q hq => hmem q (List.mem_cons_of_mem _ hq))
    simp only [Cohort.simulateList, hget]
    exact hrest

theorem simulateList_five_eq (stream : Nat → Nat → ℚ) (n : Nat) :
    ∀ (pats : List Patient) (g : RNG),
    (Cohort.simulateList stream n pats g).2.2.1 =
      ((Cohort.simulateList stream n pats g).2.1).map
        (fun v => if 5 < v then 1 else 0) := by
  intro pats
  induction pats with
  | nil => intro g; rfl
  | cons pat rest ih =>
    intro g
    simp only [Cohort.simulateList]
    cases h : (Patient.simulate stream pat g n).1.get_survival_time with
    | none => exact ih _
    | some v => simp [ih]

theorem simulateList_times_eq (stream : Nat → Nat → ℚ) (n : Nat) :
    ∀ (pats : List Patient) (g : RNG),
    (Cohort.simulateList stream n pats g).2.1 =
      ((Cohort.simulateList stream n pats g).1).filterMap Patient.get_survival_time := by
  intro pats
  induction pats with
  | nil => intro g; rfl
  | cons pat rest ih =>
    intro g
    simp only [Cohort.simulateList]
    cases h : (Patient.simulate stream pat g n).1.get_survival_time with
    | none => simp [List.filterMap_cons, h, ih]
    | some v => simp [List.filterMap_cons, h, ih]

theorem sum_five_map (l : List Nat) :
    (l.map (fun v => if 5 < v then 1 else 0)).sum =
      l.countP (fun v => decide (5 < v)) := by
  induction l with
  | nil => rfl
  | cons v rest ih =>
    by_cases h : 5 < v
    · simp [List.countP_cons, h, ih, Nat.add_comm]
    · simp [List.countP_cons, h, ih]

theorem npPick_mem (a : List ℚ) :
    ∀ (idxs : List Nat) (out : List ℚ), npPick a idxs = some out →
    ∀ x ∈ out, x ∈ a := by
  intro idxs
  induction idxs with
  | nil =>
    intro out h x hx
    simp only [npPick, Option.some.injEq] at h
    subst h
    simp at hx
  | cons i rest ih =>
    intro out h x hx
    simp only [npPick] at h
    cases hg : a.get? i with
    | none => rw [hg] at h; exact absurd h (by simp)
    | some y =>
      rw [hg] at h
      cases hp : npPick a rest with
      | none => rw [hp] at h; exact absurd h (by simp)
      | some ys =>
        rw [hp] at h
        simp only [Option.some.injEq] at h
        subst h
        rcases List.mem_cons.mp hx with hxy | hxys
        · subst hxy
          exact List.get?_mem hg
        · exact ih ys hp x hxys

theorem npChoice_degenerate (a ws : List ℚ) (idxs : List Nat) (h : npSum ws = 0) :
    npChoice a (npDivide ws (npSum ws)) idxs = none := by
  cases ws with
  | nil =>
    simp [npChoice, npDivide]
  | cons w rest =>
    simp [npChoice, npDivide, h]

theorem mcSimLoop_length (stream : Nat → Nat → ℚ) (n : Nat) :
    ∀ (ids pss : List Nat) (ps : List ℚ) (g : RNG) (ms fs : List ℚ) (g' : RNG),
    MultiCohort.simLoop stream n ids pss ps g = some (ms, fs, g') →
    ms.length = ids.length := by
  intro ids
  induction ids with
  | nil =>
    intro pss ps g ms fs g' h
    simp only [MultiCohort.simLoop, Option.some.injEq] at h
    injection h with h1 h2
    rw [← h1]
    rfl
  | cons id rest ih =>
    intro pss ps g ms fs g' h
    cases pss with
    | nil => exact absurd h (by simp [MultiCohort.simLoop])
    | cons pshd psstl =>
      cases ps with
      | nil => exact absurd h (by simp [MultiCohort.simLoop])
      | cons phd ptl =>
        simp only [MultiCohort.simLoop] at h
        cases hm : (Cohort.simulate stream (Cohort.init id pshd phd g).1
            (Cohort.init id pshd phd g).2 n).1.get_ave_survival_time with
        | none => rw [hm] at h; exact absurd h (by simp)
        | some m =>
          rw [hm] at h
          cases hf : (Cohort.simulate stream (Cohort.init id pshd phd g).1
              (Cohort.init id pshd phd g).2 n).1.get_percentage with
          | none => rw [hf] at h; exact absurd h (by simp)
          | some f =>
            rw [hf] at h
            cases hr : MultiCohort.simLoop stream n rest psstl ptl
                (Cohort.simulate stream (Cohort.init id pshd phd g).1
                  (Cohort.init id pshd phd g).2 n).2 with
            | none => rw [hr] at h; exact absurd h (by simp)
            | some r =>
              rw [hr] at h
              simp only [Option.some.injEq] at h
              have := ih psstl ptl _ r.1 r.2.1 r.2.2 (by rw [hr])
              injection h with h1 h2
              rw [← h1]
              simp [this]

/-! ## Claim theorems -/

/-- Claim C1: the claim states that the survival result for a fixed
(patient id, mortality probability, horizon) triple is independent of any
other patient's identity and of simulation order.  The code violates this:
`self._rnd` is the shared module-level generator, so constructing a second
patient reseeds the stream the first patient will consume.  Under a variate
table whose seed-0 stream always kills at probability 1 and whose seed-1
stream never does, patient (id 0, probability 1, horizon 1) dies at time 1
when simulated alone but stays alive as the first patient of
`Cohort(0, 2, 1)`, whose second patient has id 1. -/
theorem claim_C1 : C1alone = some 1 ∧ C1inCohort = none := by decide

/-- Claim C2 counterexample: the claim states that once horizon steps have
elapsed in a completed `simulate(horizon)` call, a repeated call produces no
further change.  For a patient still ALIVE after `simulate(1)`, the repeated
call re-enters the while-loop with `t = 0`, draws a fresh variate and can kill
the patient: under `C2stream` the first call leaves the patient alive and the
second records death with survival time 1. -/
theorem claim_C2_counterexample :
    C2once.1.get_survival_time = none ∧ C2twice.1.get_survival_time = some 1 ∧
      ¬ C2twice.1 = C2once.1 := by decide

/-- Claim C2 (amended): once a patient is DEAD, a repeated `simulate` call is
a no-op: the patient record (health state and recorded survival time) and the
generator state are unchanged, hence `get_survival_time` is unchanged.  (The
half of the original claim about a still-ALIVE patient whose horizon has
elapsed is false, as the counterexample shows.) -/
theorem claim_C2_amended (stream : Nat → Nat → ℚ) (pat : Patient) (g : RNG) (n : Nat)
    (h : pat.healthState = HealthStat.DEAD) :
    Patient.simulate stream pat g n = (pat, g) ∧
      (Patient.simulate stream pat g n).1.get_survival_time = pat.get_survival_time := by
  have hd := simLoop_dead stream pat g 0 n h
  exact ⟨hd, by rw [Patient.simulate, hd]⟩

/-- Claim C2 witness: the amended theorem applied to a concrete dead patient. -/
theorem claim_C2_amended_witness :
    Patient.simulate C2stream ⟨0, 7, HealthStat.DEAD, 4⟩ ⟨0, 0⟩ 7 =
      (⟨0, 7, HealthStat.DEAD, 4⟩, ⟨0, 0⟩) ∧
    (Patient.simulate C2stream ⟨0, 7, HealthStat.DEAD, 4⟩ ⟨0, 0⟩ 7).1.get_survival_time =
      Patient.get_survival_time ⟨0, 7, HealthStat.DEAD, 4⟩ :=
  claim_C2_amended C2stream ⟨0, 7, HealthStat.DEAD, 4⟩ ⟨0, 0⟩ 7 rfl

/-- Claim C3: for any alive patient run through `simulate(n)` with `n ≥ 1`,
whenever `get_survival_time` afterwards returns a value `v`, then `1 ≤ v ≤ n`
and `v` is one plus the zero-based step index at which death was first
sampled during the call: the `v`-th variate the call draws from the global
generator is below the mortality probability and no earlier one is. -/
theorem claim_C3 (stream : Nat → Nat → ℚ) (pat : Patient) (g : RNG) (n v : Nat)
    (hA : pat.healthState = HealthStat.ALIVE) (hn : 1 ≤ n)
    (h : ((Patient.simulate stream pat g n).1).get_survival_time = some v) :
    1 ≤ v ∧ v ≤ n ∧ stream g.seed (g.pos + (v - 1)) < pat.mortalityProb ∧
      ∀ j, j < v - 1 → ¬ stream g.seed (g.pos + j) < pat.mortalityProb := by
  have h' : ((Patient.simLoop stream pat ⟨g.seed, g.pos⟩ 0 n).1).get_survival_time
      = some v := h
  have hspec := simLoop_death_spec stream g.seed n 0 g.pos pat v hA h'
  obtain ⟨h1, h2, h3, h4⟩ := hspec
  exact ⟨by omega, by omega, h3, h4⟩

/-- Claim C3 witness: the theorem applied to a concrete dying patient. -/
theorem claim_C3_witness :
    1 ≤ 1 ∧ 1 ≤ 3 ∧ streamZero 0 (0 + (1 - 1)) < 1 ∧
      ∀ j, j < 1 - 1 → ¬ streamZero 0 (0 + j) < 1 :=
  claim_C3 streamZero ⟨0, 1, HealthStat.ALIVE, 0⟩ ⟨0, 0⟩ 3 1 rfl (by decide) (by decide)

/-- Claim C4 counterexample: the claim states that constructing a patient
with a mortality probability outside [0,1] fails fast.  The code performs no
validation: `Patient(2, 2)` is constructed normally, stores 2, and a
subsequent simulation proceeds using it (here dying at time 1 on a variate of
0). -/
theorem claim_C4_counterexample :
    (Patient.init 2 (2 : ℚ) ⟨0, 0⟩).1.mortalityProb = 2 ∧
    (Patient.init 2 (2 : ℚ) ⟨0, 0⟩).1.healthState = HealthStat.ALIVE ∧
    (patientRun streamZero 2 (2 : ℚ) ⟨0, 0⟩ 1).get_survival_time = some 1 := by decide

/-- Claim C4 (amended): construction of a patient, and of every patient of a
cohort, accepts any mortality probability without validation and stores it
unchanged; no invalid-parameter failure exists at construction. -/
theorem claim_C4_amended (id pop_size : Nat) (p : ℚ) (g : RNG) :
    (Patient.init id p g).1.mortalityProb = p ∧
    (Patient.init id p g).1.healthState = HealthStat.ALIVE ∧
    ∀ pat ∈ (Cohort.init id pop_size p g).1.patients, pat.mortalityProb = p := by
  refine ⟨rfl, rfl, ?_⟩
  intro pat hmem
  exact (initAux_mem p _ _ pat hmem).1

/-- Claim C4 witness: the amended theorem applied to the out-of-range
probability 2. -/
theorem claim_C4_amended_witness :
    (Patient.init 0 (2 : ℚ) ⟨0, 0⟩).1.mortalityProb = 2 ∧
    Patient.mortalityProb ⟨0, 2, HealthStat.ALIVE, 0⟩ = 2 :=
  ⟨(claim_C4_amended 0 1 (2 : ℚ) ⟨0, 0⟩).1,
   (claim_C4_amended 0 1 (2 : ℚ) ⟨0, 0⟩).2.2 ⟨0, 2, HealthStat.ALIVE, 0⟩ (by decide)⟩

/-- Claim C5: on any simulated cohort that recorded no deaths, both summary
queries surface the division by zero as a failure (`none`) rather than a
numeric value; and a cohort simulated with mortality probability 0 (under any
realizable variate table, i.e. one producing non-negative variates) records
no deaths, so both of its queries fail this way. -/
theorem claim_C5 (stream : Nat → Nat → ℚ) (hs : ∀ s u, 0 ≤ stream s u)
    (id pop_size : Nat) (p : ℚ) (g0 : RNG) (n : Nat) :
    ((cohortRun stream id pop_size p g0 n).survivalTimes = [] →
      (cohortRun stream id pop_size p g0 n).get_ave_survival_time = none ∧
      (cohortRun stream id pop_size p g0 n).get_percentage = none) ∧
    ((cohortRun stream id pop_size 0 g0 n).survivalTimes = [] ∧
      (cohortRun stream id pop_size 0 g0 n).get_ave_survival_time = none ∧
      (cohortRun stream id pop_size 0 g0 n).get_percentage = none) := by
  constructor
  · intro h
    have h5 : (cohortRun stream id pop_size p g0 n).five =
        ((cohortRun stream id pop_size p g0 n).survivalTimes).map
          (fun v => if 5 < v then 1 else 0) :=
      simulateList_five_eq stream n _ _
    rw [h] at h5
    exact ⟨by simp [Cohort.get_ave_survival_time, h], by simp [Cohort.get_percentage, h5]⟩
  · have hmem : ∀ pat ∈ (Cohort.init id pop_size 0 g0).1.patients,
        pat.mortalityProb = 0 ∧ pat.healthState = HealthStat.ALIVE := by
      intro pat hp
      have h := initAux_mem 0 _ _ pat hp
      exact ⟨h.1, h.2.1⟩
    have hnil := simulateList_no_death stream hs n (Cohort.init id pop_size 0 g0).1.patients
      (Cohort.init id pop_size 0 g0).2 hmem
    have h1 : (cohortRun stream id pop_size 0 g0 n).survivalTimes = [] := hnil.1
    have h2 : (cohortRun stream id pop_size 0 g0 n).five = [] := hnil.2
    exact ⟨h1, by simp [Cohort.get_ave_survival_time, h1],
      by simp [Cohort.get_percentage, h2]⟩

/-- Claim C5 witness: the theorem applied to a deathless nonzero-probability
cohort (population 0) and to a concrete zero-probability cohort. -/
theorem claim_C5_witness :
    ((cohortRun streamZero 0 0 5 ⟨0, 0⟩ 3).get_ave_survival_time = none ∧
      (cohortRun streamZero 0 0 5 ⟨0, 0⟩ 3).get_percentage = none) ∧
    ((cohortRun streamZero 0 2 0 ⟨0, 0⟩ 3).survivalTimes = [] ∧
      (cohortRun streamZero 0 2 0 ⟨0, 0⟩ 3).get_ave_survival_time = none ∧
      (cohortRun streamZero 0 2 0 ⟨0, 0⟩ 3).get_percentage = none) :=
  ⟨(claim_C5 streamZero (fun _ _ => le_refl 0) 0 0 5 ⟨0, 0⟩ 3).1 (by decide),
   (claim_C5 streamZero (fun _ _ => le_refl 0) 0 2 5 ⟨0, 0⟩ 3).2⟩

/-- Claim C6: on a simulated cohort with at least one death, the recorded
survival times are exactly those of the dead patients, the mean query returns
their arithmetic mean, and the percentage query returns the number of deaths
with survival time strictly greater than 5 divided by the number of deaths. -/
theorem claim_C6 (stream : Nat → Nat → ℚ) (id pop_size : Nat) (p : ℚ) (g0 : RNG) (n : Nat)
    (h : (cohortRun stream id pop_size p g0 n).survivalTimes ≠ []) :
    (cohortRun stream id pop_size p g0 n).survivalTimes =
      ((cohortRun stream id pop_size p g0 n).patients).filterMap Patient.get_survival_time ∧
    (cohortRun stream id pop_size p g0 n).get_ave_survival_time =
      some (((cohortRun stream id pop_size p g0 n).survivalTimes.sum : ℚ) /
        ((cohortRun stream id pop_size p g0 n).survivalTimes.length : ℚ)) ∧
    (cohortRun stream id pop_size p g0 n).get_percentage =
      some (((cohortRun stream id pop_size p g0 n).survivalTimes.countP
          (fun v => decide (5 < v)) : ℚ) /
        ((cohortRun stream id pop_size p g0 n).survivalTimes.length : ℚ)) := by
  have hfive : (cohortRun stream id pop_size p g0 n).five =
      ((cohortRun stream id pop_size p g0 n).survivalTimes).map
        (fun v => if 5 < v then 1 else 0) :=
    simulateList_five_eq stream n _ _
  have hlen : (cohortRun stream id pop_size p g0 n).five.length =
      (cohortRun stream id pop_size p g0 n).survivalTimes.length := by
    rw [hfive, List.length_map]
  have hln0 : (cohortRun stream id pop_size p g0 n).survivalTimes.length ≠ 0 := by
    intro h0
    exact h (List.eq_nil_of_length_eq_zero h0)
  refine ⟨simulateList_times_eq stream n _ _, ?_, ?_⟩
  · simp [Cohort.get_ave_survival_time, hln0]
  · have hsum : ((cohortRun stream id pop_size p g0 n).five.sum : ℚ) =
        ((cohortRun stream id pop_size p g0 n).survivalTimes.countP
          (fun v => decide (5 < v)) : ℚ) := by
      rw [hfive, sum_five_map]
    simp only [Cohort.get_percentage, hlen, hln0, if_false, hsum]

/-- Claim C6 witness: the theorem applied to a cohort of one patient dying at
time 1. -/
theorem claim_C6_witness :
    (cohortRun streamZero 0 1 1 ⟨0, 0⟩ 1).survivalTimes =
      ((cohortRun streamZero 0 1 1 ⟨0, 0⟩ 1).patients).filterMap Patient.get_survival_time ∧
    (cohortRun streamZero 0 1 1 ⟨0, 0⟩ 1).get_ave_survival_time =
      some (((cohortRun streamZero 0 1 1 ⟨0, 0⟩ 1).survivalTimes.sum : ℚ) /
        ((cohortRun streamZero 0 1 1 ⟨0, 0⟩ 1).survivalTimes.length : ℚ)) ∧
    (cohortRun streamZero 0 1 1 ⟨0, 0⟩ 1).get_percentage =
      some (((cohortRun streamZero 0 1 1 ⟨0, 0⟩ 1).survivalTimes.countP
          (fun v => decide (5 < v)) : ℚ) /
        ((cohortRun streamZero 0 1 1 ⟨0, 0⟩ 1).survivalTimes.length : ℚ)) :=
  claim_C6 streamZero 0 1 1 ⟨0, 0⟩ 1 (by decide)

/-- Claim C7 counterexample: the claim states that a zero weight sum makes
the engine fail with a degenerate-likelihood error rather than divide by
zero.  The code's `np.divide` performs the division regardless, yielding IEEE
non-numbers (modelled as `none` entries) instead of failing, unlike the
spec-modelled normalization which does fail there. -/
theorem claim_C7_counterexample :
    npDivide [0, 0] (npSum [0, 0]) = [none, none] ∧ normalizeSpec [0, 0] = none := by
  constructor
  · simp [npDivide, npSum]
  · simp [normalizeSpec]

/-- Claim C7 (amended): when the weight sum is nonzero each normalized weight
is the unnormalized weight divided by the sum; when the sum is zero the
normalization step still divides, producing only non-numeric entries, and the
calibration pass then fails at the subsequent resampling step (np.random.choice
rejects the NaN probability vector), not at normalization. -/
theorem claim_C7_amended :
    (∀ ws : List ℚ, npSum ws ≠ 0 →
      npDivide ws (npSum ws) = ws.map (fun w => some (w / npSum ws))) ∧
    (∀ ws : List ℚ, npSum ws = 0 →
      npDivide ws (npSum ws) = ws.map (fun _ => none)) ∧
    (∀ (stream : Nat → Nat → ℚ) (pmf : ℚ → ℚ) (samples : List ℚ)
      (pop_size n_time_steps : Nat) (idxs : List Nat) (g : RNG)
      (mc' : MultiCohort) (g' : RNG),
      MultiCohort.simulate stream (MultiCohort.init (List.range samples.length)
        (List.replicate samples.length pop_size) samples) g n_time_steps = some (mc', g') →
      npSum (mc'.percentages.map pmf) = 0 →
      Calibration.sample_posterior stream pmf samples pop_size n_time_steps idxs g = none) := by
  refine ⟨?_, ?_, ?_⟩
  · intro ws hw
    simp [npDivide, hw]
  · intro ws hw
    simp [npDivide, hw]
  · intro stream pmf samples pop_size n idxs g mc' g' hsim hw
    simp only [Calibration.sample_posterior]
    rw [hsim]
    simp only
    rw [npChoice_degenerate samples (mc'.percentages.map pmf) idxs hw]

/-- Claim C7 witness: the amended theorem applied to a nonzero sum, to a zero
sum, and to a concrete calibration pass whose one likelihood weight is 0. -/
theorem claim_C7_amended_witness :
    npDivide [2] (npSum [2]) = [2].map (fun w => some (w / npSum [2])) ∧
    npDivide [0] (npSum [0]) = ([0] : List ℚ).map (fun _ => none) ∧
    Calibration.sample_posterior streamZero (fun _ => 0) [1] 1 1 [0] ⟨9, 9⟩ = none :=
  ⟨claim_C7_amended.1 [2] (by norm_num [npSum]),
   claim_C7_amended.2.1 [0] (by simp [npSum]),
   claim_C7_amended.2.2 streamZero (fun _ => 0) [1] 1 1 [0] ⟨9, 9⟩
     ⟨[0], [1], [1], [1], [0]⟩ ⟨0, 1⟩
     (by
       norm_num [MultiCohort.simulate, MultiCohort.init, MultiCohort.simLoop,
         Cohort.init, Cohort.initAux, Patient.init, Cohort.simulate,
         Cohort.simulateList, Patient.simulate, Patient.simLoop,
         Patient.get_survival_time, Cohort.get_ave_survival_time,
         Cohort.get_percentage, streamZero, List.range_succ])
     (by simp [npSum])⟩

/-- Claim C8: after a completed calibration pass, every entry of the
posterior sample vector is an exact member of the prior sample vector: the
resampling step only ever selects values stored in `mortalitysamples`. -/
theorem claim_C8 (stream : Nat → Nat → ℚ) (pmf : ℚ → ℚ) (samples : List ℚ)
    (pop_size n_time_steps : Nat) (idxs : List Nat) (g : RNG) (c : Calibration)
    (h : Calibration.sample_posterior stream pmf samples pop_size n_time_steps idxs g
      = some c) :
    ∀ x ∈ c.mortalityresamples, x ∈ c.mortalitysamples := by
  intro x hx
  simp only [Calibration.sample_posterior] at h
  cases hsim : MultiCohort.simulate stream (MultiCohort.init (List.range samples.length)
      (List.replicate samples.length pop_size) samples) g n_time_steps with
  | none => rw [hsim] at h; exact absurd h (by simp)
  | some r =>
    rw [hsim] at h
    simp only at h
    cases hch : npChoice samples (npDivide (r.1.percentages.map pmf)
        (npSum (r.1.percentages.map pmf))) idxs with
    | none => rw [hch] at h; exact absurd h (by simp)
    | some res =>
      rw [hch] at h
      simp only [Option.some.injEq] at h
      subst h
      rw [npChoice] at hch
      split at hch
      · exact npPick_mem samples idxs res hch x hx
      · exact absurd hch (by simp)

/-- Claim C8 witness: the theorem applied to a completed concrete calibration
pass resampling twice from a one-element prior vector. -/
theorem claim_C8_witness :
    (1 : ℚ) ∈ Calibration.mortalitysamples ⟨[1], [1], [some 1], [1, 1]⟩ :=
  claim_C8 streamZero (fun _ => 1) [1] 1 1 [0, 0] ⟨5, 5⟩
    ⟨[1], [1], [some 1], [1, 1]⟩
    (by
      norm_num [Calibration.sample_posterior, MultiCohort.simulate, MultiCohort.init,
        MultiCohort.simLoop, Cohort.init, Cohort.initAux, Patient.init,
        Cohort.simulate, Cohort.simulateList, Patient.simulate, Patient.simLoop,
        Patient.get_survival_time, Cohort.get_ave_survival_time,
        Cohort.get_percentage, streamZero, npDivide, npSum, npChoice, npPick,
        List.range_succ, List.filterMap_cons, List.filterMap_nil])
    1 (by simp)

/-- Claim C9 counterexample: the claim states that any index outside 0..E-1,
including negative indices, fails.  Python list subscription wraps negative
indices: on a simulated two-cohort ensemble, index -1 returns the last
cohort's mean survival time (here 1) instead of failing. -/
theorem claim_C9_counterexample :
    C9run.map (fun r => r.1.get_cohort_mean_survival (-1)) = some (some 1) := by
  norm_num [C9run, MultiCohort.simulate, MultiCohort.init, MultiCohort.simLoop,
    Cohort.init, Cohort.initAux, Patient.init, Cohort.simulate, Cohort.simulateList,
    Patient.simulate, Patient.simLoop, Patient.get_survival_time,
    Cohort.get_ave_survival_time, Cohort.get_percentage, streamZero,
    MultiCohort.get_cohort_mean_survival, pyGet]

/-- Claim C9 (amended): the per-cohort mean query fails on an ensemble that
has not been simulated (every index), and on any index `i` with
`i ≥ E` or `i < -E` where `E` is the number of recorded cohort means; but an
index in `-E..-1` wraps Python-style to position `E + i` and returns that
cohort's value.  After a successful `simulate`, `E` equals the number of
cohort ids. -/
theorem claim_C9_amended :
    (∀ (ids pss : List Nat) (ps : List ℚ) (i : Int),
      (MultiCohort.init ids pss ps).get_cohort_mean_survival i = none) ∧
    (∀ (mc : MultiCohort) (i : Int),
      ((mc.meanSurvivalTimes.length : Int) ≤ i ∨ i < -(mc.meanSurvivalTimes.length : Int)) →
      mc.get_cohort_mean_survival i = none) ∧
    (∀ (mc : MultiCohort) (i : Int),
      -(mc.meanSurvivalTimes.length : Int) ≤ i → i < 0 →
      mc.get_cohort_mean_survival i =
        mc.meanSurvivalTimes.get? ((mc.meanSurvivalTimes.length : Int) + i).toNat ∧
      (mc.get_cohort_mean_survival i).isSome = true) ∧
    (∀ (stream : Nat → Nat → ℚ) (ids pss : List Nat) (ps : List ℚ) (g : RNG) (n : Nat)
      (mc' : MultiCohort) (g' : RNG),
      MultiCohort.simulate stream (MultiCohort.init ids pss ps) g n = some (mc', g') →
      mc'.meanSurvivalTimes.length = ids.length) := by
  refine ⟨?_, ?_, ?_, ?_⟩
  · intro ids pss ps i
    by_cases h0 : 0 ≤ i
    · simp [MultiCohort.get_cohort_mean_survival, MultiCohort.init, pyGet, h0]
    · have h1 : ¬ (0 : Int) ≤ ((([] : List ℚ).length : Int) + i) := by
        simp only [List.length_nil, Int.natCast_zero, Int.zero_add]
        omega
      simp [MultiCohort.get_cohort_mean_survival, MultiCohort.init, pyGet, h0, h1]
  · intro mc i hi
    unfold MultiCohort.get_cohort_mean_survival pyGet
    rcases hi with hi | hi
    · have h0 : 0 ≤ i := le_trans (Int.natCast_nonneg _) hi
      rw [if_pos h0]
      apply List.get?_eq_none.mpr
      omega
    · have h0 : ¬ 0 ≤ i := by omega
      rw [if_neg h0]
      have h1 : ¬ 0 ≤ ((mc.meanSurvivalTimes.length : Int) + i) := by omega
      rw [if_neg h1]
  · intro mc i h1 h2
    unfold MultiCohort.get_cohort_mean_survival pyGet
    have h0 : ¬ 0 ≤ i := by omega
    rw [if_neg h0]
    have h3 : 0 ≤ ((mc.meanSurvivalTimes.length : Int) + i) := by omega
    rw [if_pos h3]
    refine ⟨rfl, ?_⟩
    have h4 : ((mc.meanSurvivalTimes.length : Int) + i).toNat <
        mc.meanSurvivalTimes.length := by omega
    rw [List.get?_eq_get h4]
    rfl
  · intro stream ids pss ps g n mc' g' h
    simp only [MultiCohort.simulate, MultiCohort.init] at h
    cases hl : MultiCohort.simLoop stream n ids pss ps g with
    | none => rw [hl] at h; exact absurd h (by simp)
    | some r =>
      rw [hl] at h
      simp only [Option.some.injEq] at h
      injection h with h1 h2
      rw [← h1]
      have := mcSimLoop_length stream n ids pss ps g r.1 r.2.1 r.2.2 hl
      simp [this]

/-- Claim C9 witness: the amended theorem applied to a one-cohort record (an
out-of-range index and the wrapping index -1) and to the simulated two-cohort
ensemble of the counterexample scenario. -/
theorem claim_C9_amended_witness :
    MultiCohort.get_cohort_mean_survival ⟨[0], [1], [7], [3], [0]⟩ 5 = none ∧
    (MultiCohort.get_cohort_mean_survival ⟨[0], [1], [7], [3], [0]⟩ (-1) =
        List.get? [(3 : ℚ)] (((([(3 : ℚ)].length : Nat) : Int) + (-1)).toNat) ∧
      (MultiCohort.get_cohort_mean_survival ⟨[0], [1], [7], [3], [0]⟩ (-1)).isSome = true) ∧
    (MultiCohort.meanSurvivalTimes
        ⟨[0, 1], [1, 1], [1, 1], [1, 1], [0, 0]⟩).length = [0, 1].length :=
  ⟨claim_C9_amended.2.1 ⟨[0], [1], [7], [3], [0]⟩ 5 (Or.inl (by decide)),
   claim_C9_amended.2.2.1 ⟨[0], [1], [7], [3], [0]⟩ (-1) (by decide) (by decide),
   claim_C9_amended.2.2.2 streamZero [0, 1] [1, 1] [1, 1] ⟨7, 7⟩ 1
     ⟨[0, 1], [1, 1], [1, 1], [1, 1], [0, 0]⟩ ⟨1, 1⟩
     (by
       norm_num [MultiCohort.simulate, MultiCohort.init, MultiCohort.simLoop,
         Cohort.init, Cohort.initAux, Patient.init, Cohort.simulate,
         Cohort.simulateList, Patient.simulate, Patient.simLoop,
         Patient.get_survival_time, Cohort.get_ave_survival_time,
         Cohort.get_percentage, streamZero])⟩

/-- Claim C10: `get_survival_time` returns no value exactly when the patient
is ALIVE; in particular a freshly constructed patient returns `none` even
though the internal survival-time field is initialized to 0. -/
theorem claim_C10 :
    (∀ pat : Patient, pat.get_survival_time = none ↔ pat.healthState = HealthStat.ALIVE) ∧
    ∀ (id : Nat) (p : ℚ) (g : RNG),
      (Patient.init id p g).1.get_survival_time = none ∧
      (Patient.init id p g).1.survivalTime = 0 := by
  constructor
  · intro pat
    cases hp : pat.healthState <;> simp [Patient.get_survival_time, hp]
  · intro id p g
    exact ⟨rfl, rfl⟩

end HPM
